import Mathlib

/-!
Verification of the soc-rs memory-mapped I/O subsystem: the Bus, the PLIC
interrupt controller, the UART register model, the RAM device and the
Channel primitive, shallowly embedded from the Rust sources.

Conventions of the embedding:
* Machine integers (`u8`/`u32`/`u64`) become `Nat` with explicit masking
  (`% 2 ^ w`, `&&&` with width masks) at the points where the Rust code
  truncates.
* Rust array indexing is bounds-checked and panics when out of range; it is
  embedded as `Option`-valued access (`getP`/`setP`), with `none` standing
  for a panic.  An out-of-buffer raw-pointer access in the Memory device is
  undefined behaviour and is likewise embedded as `none`.
* `Result<T, Exception>` becomes `Except Exception T`; methods taking
  `&mut self` become explicit state passing.
-/

/-- Access width, from `utils::Size` (`_1`/`_2`/`_4`/`_8`). -/
inductive Size where
  | _1
  | _2
  | _4
  | _8
deriving DecidableEq, Repr

/-- The single bus error kind, from `utils::Exception`. -/
inductive Exception where
  | BusException
deriving DecidableEq, Repr

/-- Checked array read: Rust `arr[i]` on an array of length `len`;
`none` models the out-of-bounds panic. -/
def getP {α : Type} (f : Nat → α) (len i : Nat) : Option α :=
  if i < len then some (f i) else none

/-- Checked array write: Rust `arr[i] = v` on an array of length `len`;
`none` models the out-of-bounds panic. -/
def setP {α : Type} (f : Nat → α) (len i : Nat) (v : α) : Option (Nat → α) :=
  if i < len then some (fun j => if j = i then v else f j) else none

/-- `plic::Pair` : per-privilege (machine/supervisor) pair. -/
structure Pair (α : Type) where
  machine : α
  supervisor : α

/-- `Pair::at(index)`.  Every call site passes `context % 2`, so the
`unreachable!` arm for indices ≥ 2 is never hit; the embedding maps every
nonzero selector to the supervisor half. -/
def Pair.sel {α : Type} (p : Pair α) (m : Nat) : α :=
  if m = 0 then p.machine else p.supervisor

/-- `Pair::at_mut(index)` followed by a store, as a functional update. -/
def Pair.store {α : Type} (p : Pair α) (m : Nat) (v : α) : Pair α :=
  if m = 0 then { p with machine := v } else { p with supervisor := v }

/-- `plic::HART_COUNT`. -/
def HART_COUNT : Nat := 1

/-- `plic::INTERRUPT_COUNT`. -/
def INTERRUPT_COUNT : Nat := 64

/-- State of `plic::Plic`.  Arrays are embedded as functions; their Rust
lengths (`priorities : [u32; 1023]`, `pending : [u32; 32]`,
`enable/threshold/claimed : [...; HART_COUNT * 2]`, inner enable words
`[u32; 32]`, inner claimed flags `[bool; 1024]`) are enforced at every
access through `getP`/`setP`. -/
structure Plic where
  priorities : Nat → Nat
  pending : Nat → Nat
  enable : Nat → Pair (Nat → Nat)
  threshold : Nat → Pair Nat
  claimed : Nat → Pair (Nat → Bool)
  update : Bool

/-- `Plic::new()`. -/
def plicNew : Plic where
  priorities := fun _ => 0
  pending := fun _ => 0
  enable := fun _ => { machine := fun _ => 0, supervisor := fun _ => 0 }
  threshold := fun _ => { machine := 0, supervisor := 0 }
  claimed := fun _ => { machine := fun _ => false, supervisor := fun _ => false }
  update := false

/-- The new value of the pending word touched by `Plic::irq`:
`pending[irq/32] |= 1 << irq%32` or `pending[irq/32] &= !(1 << irq%32)`
(32-bit complement). -/
def irqWord (p : Plic) (irq : Nat) (enable : Bool) : Nat :=
  let w := p.pending (irq / 32)
  if enable then w ||| (1 <<< (irq % 32))
  else w &&& (0xFFFFFFFF ^^^ (1 <<< (irq % 32)))

/-- `Plic::irq(irq, enable)`: set/clear the pending bit, raising the update
flag only when the stored word actually changed. -/
def plicIrq (p : Plic) (irq : Nat) (enable : Bool) : Option Plic :=
  let index := irq / 32
  (getP p.pending 32 index).bind fun w =>
  let w2 := irqWord p irq enable
  (setP p.pending 32 index w2).map fun pend2 =>
  { p with pending := pend2, update := if w2 ≠ w then true else p.update }

/-- `Plic::highest_irq(context)`: scan sources 1..63 in ascending order,
keeping the first source of strictly highest priority among those enabled,
pending, not claimed and above the threshold.  NOTE (faithful to the
source): the claimed flag is tested at index `i / 32`, not `i`. -/
def highestIrq (p : Plic) (context : Nat) : Option Nat :=
  let hart := context / 2
  let mode := context % 2
  (getP p.enable 2 hart).bind fun enPr =>
  (getP p.threshold 2 hart).bind fun thPr =>
  (getP p.claimed 2 hart).map fun clPr =>
  let en := enPr.sel mode
  let th := thPr.sel mode
  let cl := clPr.sel mode
  (((List.range' 1 (INTERRUPT_COUNT - 1)).foldl (fun acc i =>
    let index := i / 32
    let offset := i % 32
    if en index &&& (1 <<< offset) ≠ 0 ∧ p.pending index &&& (1 <<< offset) ≠ 0
        ∧ cl index = false ∧ p.priorities i > th ∧ p.priorities i > acc.2
    then (i, p.priorities i) else acc) (0, 0)).1)

/-- `self.claimed[context / 2].at_mut(context % 2)[irq] = v`, shared by
`Plic::claim` and `Plic::complete`; both array indexings are checked. -/
def setClaimed (p : Plic) (context : Nat) (irq : Nat) (v : Bool) : Option Plic :=
  (getP p.claimed 2 (context / 2)).bind fun clPr =>
  (setP (clPr.sel (context % 2)) 1024 irq v).bind fun inner2 =>
  (setP p.claimed 2 (context / 2) (clPr.store (context % 2) inner2)).map fun cl2 =>
  { p with claimed := cl2 }

/-- `Plic::claim(context)`: take the highest eligible source, clear its
pending bit (NOTE, faithful to the source: at word `irq / 8`, bit
`irq % 8`), mark it claimed and return it. -/
def plicClaim (p : Plic) (context : Nat) : Option (Nat × Plic) :=
  (highestIrq p context).bind fun irq =>
  (getP p.pending 32 (irq / 8)).bind fun w =>
  (setP p.pending 32 (irq / 8) (w &&& (0xFFFFFFFF ^^^ (1 <<< (irq % 8))))).bind fun pend2 =>
  (setClaimed { p with pending := pend2 } context irq true).map fun q => (irq, q)

/-- `Plic::complete(context, irq)`: clear the claimed flag of `irq` for the
context. -/
def plicComplete (p : Plic) (context : Nat) (irq : Nat) : Option Plic :=
  setClaimed p context irq false

/-- `Plic::check_interrupt()`: on a raised update flag, clear it and report
whether the highest eligible source for context 0 is nonzero.  The outer
`Option` is the panic layer; the inner one is Rust's `Option<bool>`. -/
def checkInterrupt (p : Plic) : Option (Option Bool × Plic) :=
  if p.update then
    (highestIrq p 0).map fun irq => (some (decide (irq ≠ 0)), { p with update := false })
  else some (none, p)

/-- `memory::MEMORY_SIZE` (1 GiB). -/
def MEMORY_SIZE : Nat := 1024 * 1024 * 1024

/-- `memory::MEMORY_START`. -/
def MEMORY_START : Nat := 0x80000000

/-- `memory::MEMORY_END`. -/
def MEMORY_END : Nat := MEMORY_START + MEMORY_SIZE - 1

/-- Number of bytes moved by an access of the given width. -/
def sizeBytes : Size → Nat
  | Size._1 => 1
  | Size._2 => 2
  | Size._4 => 4
  | Size._8 => 8

/-- Little-endian load of `n` bytes starting at offset `o` of the RAM
byte buffer, as done by the per-width `u{16,32,64}::from_le` reads. -/
def readLE (m : Nat → Nat) (o : Nat) : Nat → Nat
  | 0 => 0
  | n + 1 => m o + 256 * readLE m (o + 1) n

/-- Little-endian store of the low `n` bytes of `v` starting at offset
`o`, as done by the per-width `to_le` writes. -/
def storeLE (m : Nat → Nat) (o : Nat) : Nat → Nat → (Nat → Nat)
  | 0, _ => m
  | n + 1, v => storeLE (fun j => if j = o then v % 256 else m j) (o + 1) n (v / 256)

/-- `<Memory as Device>::read`: raw-pointer load at `address - MEMORY_START`.
The Rust code performs no bounds check; an access running past the 1 GiB
buffer is undefined behaviour, embedded as `none`. -/
def memRead (m : Nat → Nat) (address : Nat) (s : Size) : Option Nat :=
  let o := address - MEMORY_START
  if o + sizeBytes s ≤ MEMORY_SIZE then some (readLE m o (sizeBytes s)) else none

/-- `<Memory as Device>::write`: raw-pointer store at `address - MEMORY_START`,
truncating the data to the access width; out-of-buffer accesses are
undefined behaviour, embedded as `none`. -/
def memWrite (m : Nat → Nat) (address : Nat) (s : Size) (d : Nat) : Option (Nat → Nat) :=
  let o := address - MEMORY_START
  if o + sizeBytes s ≤ MEMORY_SIZE then some (storeLE m o (sizeBytes s) d) else none

/-- `uart::UART_START`. -/
def UART_START : Nat := 0x10000000

/-- `uart::UART_END` (8-byte window). -/
def UART_END : Nat := UART_START + 8 - 1

/-- `uart::INTERRUPT_ID`: the UART's PLIC source id. -/
def INTERRUPT_ID : Nat := 1

def UART_RBR_DLL : Nat := UART_START
def UART_THR : Nat := UART_START
def UART_IER_ILM : Nat := UART_START + 1
def UART_IIR : Nat := UART_START + 2
def UART_FCR : Nat := UART_START + 2
def UART_LCR : Nat := UART_START + 3
def UART_MCR : Nat := UART_START + 4
def UART_LSR : Nat := UART_START + 5
def UART_MSR : Nat := UART_START + 6
def UART_SCR : Nat := UART_START + 7

def UART_IER_RDI : Nat := 0b00000001
def UART_IER_THRI : Nat := 0b00000010
def UART_IIR_NO_INT : Nat := 0b00000001
def UART_IIR_THRI : Nat := 0b00000010
def UART_IIR_RDI : Nat := 0b00000100
def UART_FCR_ENABLE_FIFO : Nat := 0b00000001
def UART_FCR_CLEAR_RCVR : Nat := 0b00000010
def UART_FCR_CLEAR_XMIT : Nat := 0b00000100
def UART_LCR_DLAB : Nat := 0b10000000
def UART_MCR_LOOP : Nat := 0b00010000
def UART_LSR_DR : Nat := 0b00000001
def UART_LSR_OE : Nat := 0b00000010
def UART_LSR_BI : Nat := 0b00010000
def UART_LSR_THRE : Nat := 0b00100000
def UART_LSR_TEMT : Nat := 0b01000000
def UART_MCR_OUT2 : Nat := 0b00001000

/-- State of `uart::Uart`.  The receive channel endpoint is embedded as the
queue `rx` (fed by the external sender and by the loopback sender), and the
transmit channel as the queue `tx` of bytes handed to the external
receiver.  All registers are single bytes. -/
structure Uart where
  rx : List Nat
  tx : List Nat
  lcr : Nat
  dll : Nat
  dlm : Nat
  ier : Nat
  iir : Nat
  mcr : Nat
  lsr : Nat
  scr : Nat
  fcr : Nat
deriving DecidableEq, Repr

/-- `Uart::new()`; note `lsr` is initialised to `TEMT | TEMT` (sic). -/
def uartNew : Uart where
  rx := []
  tx := []
  lcr := 0
  dll := 0x0c
  dlm := 0
  ier := 0
  iir := UART_IIR_NO_INT
  mcr := UART_MCR_OUT2
  lsr := UART_LSR_TEMT ||| UART_LSR_TEMT
  scr := 0
  fcr := 0

/-- `<Uart as Device>::clk`: update data-ready from the receive queue,
honour the clear-receive/clear-transmit bits (read from `lcr`, as the
source does), recompute the interrupt state and emit one event on the
UART's interrupt line into the collector. -/
def uartClk (u : Uart) : Uart × List (Nat × Bool) :=
  let u := if u.rx ≠ [] then { u with lsr := u.lsr ||| UART_LSR_DR } else u
  let u := if u.lcr &&& UART_FCR_CLEAR_RCVR ≠ 0 then
    { u with rx := [], lsr := u.lsr &&& ((255 ^^^ UART_LSR_DR) &&& (255 ^^^ UART_FCR_CLEAR_RCVR)) }
  else u
  let u := if u.lcr &&& UART_FCR_CLEAR_XMIT ≠ 0 then
    { u with lcr := u.lcr &&& (255 ^^^ UART_FCR_CLEAR_XMIT),
             lsr := u.lsr ||| (UART_LSR_TEMT ||| UART_LSR_THRE) }
  else u
  let interrupts :=
    (if u.ier &&& UART_IER_RDI ≠ 0 ∧ u.lsr &&& UART_LSR_DR ≠ 0 then UART_IIR_RDI else 0) |||
    (if u.ier &&& UART_IER_THRI ≠ 0 ∧ u.lsr &&& UART_LSR_TEMT ≠ 0 then UART_IIR_THRI else 0)
  let u :=
    if interrupts ≠ 0 then { u with iir := UART_IIR_NO_INT }
    else { u with iir := interrupts }
  let u := if u.ier &&& UART_IER_THRI = 0 then
    { u with lsr := u.lsr ||| (UART_LSR_TEMT ||| UART_LSR_THRE) }
  else u
  -- the nonzero branch emits `irq(INTERRUPT_ID, false)` and the zero branch
  -- `irq(INTERRUPT_ID, true)`: one event whose level is `interrupts = 0`
  (u, [(INTERRUPT_ID, decide (interrupts = 0))])

/-- `<Uart as Device>::read`: 1-byte register reads; a data-register read
pops the receive queue when a byte is available. -/
def uartRead (u : Uart) (a : Nat) (s : Size) : Except Exception Nat × Uart :=
  if s ≠ Size._1 then (.error .BusException, u)
  else if a = UART_RBR_DLL then
    if u.lcr &&& UART_LCR_DLAB ≠ 0 then (.ok u.dll, u)
    else if u.lsr &&& UART_LSR_BI ≠ 0 then (.ok 0, u)
    else match u.rx with
      | [] => (.ok 0, u)
      | x :: xs => (.ok x, { u with lsr := u.lsr &&& (255 ^^^ UART_LSR_OE), rx := xs })
  else if a = UART_IER_ILM then
    (.ok (if u.lcr &&& UART_LCR_DLAB ≠ 0 then u.dlm else u.ier), u)
  else if a = UART_IIR then (.ok u.iir, u)
  else if a = UART_LCR then (.ok u.lcr, u)
  else if a = UART_MCR then (.ok u.mcr, u)
  else if a = UART_LSR then (.ok u.lsr, u)
  else if a = UART_SCR then (.ok u.scr, u)
  else if a = UART_MSR then (.ok 0, u)
  else (.error .BusException, u)

/-- `<Uart as Device>::write`: 1-byte register writes; a data-register
write forwards the byte to the loopback or external queue, or flags an
overrun when FIFOs are disabled and a byte is still pending. -/
def uartWrite (u : Uart) (a : Nat) (s : Size) (d : Nat) : Except Exception Unit × Uart :=
  if s ≠ Size._1 then (.error .BusException, u)
  else if a = UART_THR then
    if u.lcr &&& UART_LCR_DLAB ≠ 0 then (.ok (), { u with dll := d % 256 })
    else if u.fcr &&& UART_FCR_ENABLE_FIFO = 0 ∧ u.rx ≠ [] then
      (.ok (), { u with lsr := u.lsr ||| UART_LSR_OE })
    else
      let u := { u with lsr := u.lsr ||| (UART_LSR_TEMT ||| UART_LSR_THRE) }
      if u.mcr &&& UART_MCR_LOOP ≠ 0 then (.ok (), { u with rx := u.rx ++ [d % 256] })
      else (.ok (), { u with tx := u.tx ++ [d % 256] })
  else if a = UART_IER_ILM then
    if u.lcr &&& UART_LCR_DLAB ≠ 0 then (.ok (), { u with dlm := d % 256 })
    else (.ok (), { u with ier := d % 256 &&& 0b1111 })
  else if a = UART_FCR then (.ok (), { u with fcr := d % 256 })
  else if a = UART_LCR then (.ok (), { u with lcr := d % 256 })
  else if a = UART_MCR then (.ok (), { u with mcr := d % 256 &&& 0b11111 })
  else if a = UART_SCR then (.ok (), { u with scr := d % 256 })
  else (.error .BusException, u)

/-- `ysyx::YSYX_START`. -/
def YSYX_START : Nat := 0x20000000

/-- `ysyx::YSYX_END` (256 MiB window). -/
def YSYX_END : Nat := YSYX_START + 0x10000000 - 1

def VGA_WIDTH : Nat := 800 / 2
def VGA_HEIGHT : Nat := 600 / 2
def KEYDOWN : Nat := 0x8000

def YSYX_TIME_LOW : Nat := YSYX_START
def YSYX_TIME_HIGH : Nat := YSYX_START + 8
def YSYX_VGACTL_ADDR_LOW : Nat := YSYX_START + 0x100
def YSYX_VGACTL_ADDR_HIGH : Nat := YSYX_START + 0x100 + 4
def YSYX_KBD_ADDR : Nat := YSYX_START + 0x200
def YSYX_POWEROFF : Nat := YSYX_START + 0x300
def YSYX_FB_START : Nat := YSYX_START + 0x01000000
def YSYX_FB_END : Nat := YSYX_FB_START + VGA_WIDTH * VGA_HEIGHT * 4 - 1

/-- `ysyx::YsyxCommand`. -/
inductive YsyxCommand where
  | Poweroff
deriving DecidableEq, Repr

/-- State of `ysyx::Ysyx` (register-protocol slice).  The SDL window,
event pump and wall clock are external collaborators: the clock is embedded
as the oracle field `timeMs` (milliseconds since the epoch, a `u128`), and
the out-of-band command channel as the list `commands`. -/
structure Ysyx where
  commands : List YsyxCommand
  vgactl0 : Nat
  vgactl1 : Nat
  vmem : Nat → Nat
  keyQueue : List Nat
  timeMs : Nat

/-- `Ysyx::new()` (window/event-pump construction is external). -/
def ysyxNew : Ysyx where
  commands := []
  vgactl0 := (VGA_WIDTH <<< 16) ||| VGA_HEIGHT
  vgactl1 := 0
  vmem := fun _ => 0
  keyQueue := []
  timeMs := 0

/-- `<Ysyx as Device>::clk` drains host SDL events into the key queue and
command channel; the host events are the external collaborator's input and
none arrive in this embedding, so the addressable state is unchanged. -/
def ysyxClk (y : Ysyx) : Ysyx := y

/-- `<Ysyx as Device>::read`: 4-byte vgactl/framebuffer/keyboard reads and
8-byte wall-clock reads; everything else is a bus exception. -/
def ysyxRead (y : Ysyx) (a : Nat) (s : Size) : Except Exception Nat × Ysyx :=
  match s with
  | Size._4 =>
    if a = YSYX_VGACTL_ADDR_LOW then (.ok y.vgactl0, y)
    else if a = YSYX_VGACTL_ADDR_HIGH then (.ok y.vgactl1, y)
    else if YSYX_FB_START ≤ a ∧ a ≤ YSYX_FB_END then
      (.ok (y.vmem ((a - YSYX_FB_START) / 4)), y)
    else if a = YSYX_KBD_ADDR then
      match y.keyQueue with
      | [] => (.ok 0, y)
      | k :: ks => (.ok k, { y with keyQueue := ks })
    else (.error .BusException, y)
  | Size._8 =>
    if a = YSYX_TIME_LOW then (.ok (y.timeMs % 2 ^ 64), y)
    else if a = YSYX_TIME_HIGH then (.ok ((y.timeMs >>> 64) % 2 ^ 64), y)
    else (.error .BusException, y)
  | _ => (.error .BusException, y)

/-- `<Ysyx as Device>::write`: 1-byte poweroff (emits a command), 4-byte
present-to-display (an external rendering effect) and framebuffer stores. -/
def ysyxWrite (y : Ysyx) (a : Nat) (s : Size) (d : Nat) : Except Exception Unit × Ysyx :=
  match s with
  | Size._1 =>
    if a = YSYX_POWEROFF then (.ok (), { y with commands := y.commands ++ [YsyxCommand.Poweroff] })
    else (.error .BusException, y)
  | Size._4 =>
    if a = YSYX_VGACTL_ADDR_HIGH then (.ok (), y)
    else if YSYX_FB_START ≤ a ∧ a ≤ YSYX_FB_END then
      (.ok (), { y with vmem := fun j => if j = (a - YSYX_FB_START) / 4 then d % 2 ^ 32 else y.vmem j })
    else (.error .BusException, y)
  | _ => (.error .BusException, y)

/-- `plic::PLIC_START` and the PLIC sub-region bounds. -/
def PLIC_START : Nat := 0x0C000000
def PLIC_END : Nat := PLIC_START + 0x3FFFFFF
def PLIC_SOURCE_PRIORITY_START : Nat := PLIC_START + 0x000004
def PLIC_SOURCE_PRIORITY_END : Nat := PLIC_START + 0x000FFF
def PLIC_PENDING_START : Nat := PLIC_START + 0x001000
def PLIC_PENDING_END : Nat := PLIC_START + 0x00107F
def PLIC_SOURCE_ENABLE_START : Nat := PLIC_START + 0x002000
def PLIC_SOURCE_ENABLE_END : Nat := PLIC_START + 0x1F1FFF
def PLIC_THRESHOLD_CLIAM_COMPLETE_START : Nat := PLIC_START + 0x200000
def PLIC_THRESHOLD_CLIAM_COMPLETE_END : Nat := PLIC_START + 0x3FFFFFF

/-- `<Plic as Device>::read`: 4-byte reads of the priority table, pending
bitmap, enable bitmap and per-context threshold/claim block.  All table
indices are taken straight from the byte offsets, as in the source. -/
def plicRead (p : Plic) (a : Nat) (s : Size) : Option (Except Exception Nat × Plic) :=
  if s ≠ Size._4 then some (.error .BusException, p)
  else if PLIC_SOURCE_PRIORITY_START ≤ a ∧ a ≤ PLIC_SOURCE_PRIORITY_END then
    (getP p.priorities 1023 (a - PLIC_SOURCE_PRIORITY_START)).map fun v => (.ok v, p)
  else if PLIC_PENDING_START ≤ a ∧ a ≤ PLIC_PENDING_END then
    (getP p.pending 32 (a - PLIC_PENDING_START)).map fun v => (.ok v, p)
  else if PLIC_SOURCE_ENABLE_START ≤ a ∧ a ≤ PLIC_SOURCE_ENABLE_END then
    let offset := a - PLIC_SOURCE_ENABLE_START
    let context := offset / 0x80
    let item := offset % 0x80
    (getP p.enable 2 (context / 2)).bind fun enPr =>
    (getP (enPr.sel (context % 2)) 32 item).map fun v => (.ok v, p)
  else if PLIC_THRESHOLD_CLIAM_COMPLETE_START ≤ a ∧ a ≤ PLIC_THRESHOLD_CLIAM_COMPLETE_END then
    let offset := a - PLIC_THRESHOLD_CLIAM_COMPLETE_START
    let context := offset / 0x1000
    let item := offset % 0x1000
    match item with
    | 0 => (getP p.threshold 2 (context / 2)).map fun thPr => (.ok (thPr.sel (context % 2)), p)
    | 1 => (plicClaim p context).map fun r => (.ok r.1, { r.2 with update := true })
    | _ => some (.error .BusException, p)
  else some (.error .BusException, p)

/-- `<Plic as Device>::write`: 4-byte writes of the priority table, enable
bitmap and per-context threshold/complete block. -/
def plicWrite (p : Plic) (a : Nat) (s : Size) (d : Nat) : Option (Except Exception Unit × Plic) :=
  if s ≠ Size._4 then some (.error .BusException, p)
  else if PLIC_SOURCE_PRIORITY_START ≤ a ∧ a ≤ PLIC_SOURCE_PRIORITY_END then
    (setP p.priorities 1023 (a - PLIC_SOURCE_PRIORITY_START) (d % 2 ^ 32)).map fun pr2 =>
      (.ok (), { p with priorities := pr2 })
  else if PLIC_SOURCE_ENABLE_START ≤ a ∧ a ≤ PLIC_SOURCE_ENABLE_END then
    let offset := a - PLIC_SOURCE_ENABLE_START
    let context := offset / 0x80
    let item := offset % 0x80
    (getP p.enable 2 (context / 2)).bind fun enPr =>
    (setP (enPr.sel (context % 2)) 32 item (d % 2 ^ 32)).bind fun inner2 =>
    (setP p.enable 2 (context / 2) (enPr.store (context % 2) inner2)).map fun en2 =>
      (.ok (), { p with enable := en2 })
  else if PLIC_THRESHOLD_CLIAM_COMPLETE_START ≤ a ∧ a ≤ PLIC_THRESHOLD_CLIAM_COMPLETE_END then
    let offset := a - PLIC_THRESHOLD_CLIAM_COMPLETE_START
    let context := offset / 0x1000
    let item := offset % 0x1000
    match item with
    | 0 =>
      (getP p.threshold 2 (context / 2)).bind fun thPr =>
      (setP p.threshold 2 (context / 2) (thPr.store (context % 2) (d % 2 ^ 32))).map fun th2 =>
        (.ok (), { p with threshold := th2 })
    | 1 => (plicComplete p context (d % 2 ^ 32)).map fun q => (.ok (), q)
    | _ => some (.error .BusException, p)
  else some (.error .BusException, p)

/-- State of `bus::Bus`: one instance of each device plus the clock
throttle counter. -/
structure Bus where
  memory : Nat → Nat
  plic : Plic
  uart : Uart
  ysyx : Ysyx
  count : Nat

/-- `Bus::new()` (the channel endpoints handed to the controller are the
queues embedded inside the devices). -/
def busNew : Bus where
  memory := fun _ => 0
  plic := plicNew
  uart := uartNew
  ysyx := ysyxNew
  count := 0

/-- Apply the collected Irq events to the PLIC, in drain order. -/
def applyIrqs (p : Plic) : List (Nat × Bool) → Option Plic
  | [] => some p
  | (i, l) :: rest => (plicIrq p i l).bind fun q => applyIrqs q rest

/-- `Bus::clk()`: every call with `count > 1000` drives each device's
`clk`, resets the counter and applies the collected events to the PLIC;
any other call only increments the counter.  The `Irq` collector is a
`Vec` drained through `pop`, so events are applied in reverse collection
order; `Memory::clk` and `Plic::clk` are no-ops, the UART contributes one
event and the Ysyx device none. -/
def busClk (b : Bus) : Option Bus :=
  if b.count > 1000 then
    let r := uartClk b.uart
    (applyIrqs b.plic r.2.reverse).map fun p2 =>
      { b with count := 0, uart := r.1, plic := p2, ysyx := ysyxClk b.ysyx }
  else some { b with count := b.count + 1 }

/-- `n` successive `Bus::clk()` calls from `b`. -/
def busClkN : Nat → Bus → Option Bus
  | 0, b => some b
  | n + 1, b => (busClkN n b).bind busClk

/-- Whether the next `Bus::clk()` call will drive the devices (taken from
the guard of `Bus::clk`). -/
def busDrives (b : Bus) : Bool := b.count > 1000

/-- `Bus::read`: decode the address against the four device ranges and
forward; addresses outside every range fail with the bus exception. -/
def busRead (b : Bus) (a : Nat) (s : Size) : Option (Except Exception Nat × Bus) :=
  if MEMORY_START ≤ a ∧ a ≤ MEMORY_END then
    (memRead b.memory a s).map fun v => (.ok v, b)
  else if PLIC_START ≤ a ∧ a ≤ PLIC_END then
    (plicRead b.plic a s).map fun r => (r.1, { b with plic := r.2 })
  else if UART_START ≤ a ∧ a ≤ UART_END then
    let r := uartRead b.uart a s
    some (r.1, { b with uart := r.2 })
  else if YSYX_START ≤ a ∧ a ≤ YSYX_END then
    let r := ysyxRead b.ysyx a s
    some (r.1, { b with ysyx := r.2 })
  else some (.error .BusException, b)

/-- `Bus::write`: decode the address against the four device ranges and
forward; addresses outside every range fail with the bus exception. -/
def busWrite (b : Bus) (a : Nat) (s : Size) (d : Nat) : Option (Except Exception Unit × Bus) :=
  if MEMORY_START ≤ a ∧ a ≤ MEMORY_END then
    (memWrite b.memory a s d).map fun m2 => (.ok (), { b with memory := m2 })
  else if PLIC_START ≤ a ∧ a ≤ PLIC_END then
    (plicWrite b.plic a s d).map fun r => (r.1, { b with plic := r.2 })
  else if UART_START ≤ a ∧ a ≤ UART_END then
    let r := uartWrite b.uart a s d
    some (r.1, { b with uart := r.2 })
  else if YSYX_START ≤ a ∧ a ≤ YSYX_END then
    let r := ysyxWrite b.ysyx a s d
    some (r.1, { b with ysyx := r.2 })
  else some (.error .BusException, b)

/-- `Bus::interrupt()`. -/
def busInterrupt (b : Bus) : Option (Option Bool × Bus) :=
  (checkInterrupt b.plic).map fun r => (r.1, { b with plic := r.2 })

/-- `channel::Sender::send`: push the value at the back of the shared
buffer.  The lock and condition variable only mediate cross-thread access
and wakeups; the buffer content evolves as a plain FIFO list. -/
def chanSend {α : Type} (q : List α) (v : α) : List α := q ++ [v]

/-- `channel::Receiver::recv`: pop the front of the buffer; on an empty
buffer the caller blocks until a send arrives (`none` here: no value can
be returned before a matching send). -/
def chanRecv {α : Type} : List α → Option (α × List α)
  | [] => none
  | x :: xs => some (x, xs)

/-- A finite sequence of sends on one endpoint. -/
def chanSendAll {α : Type} (q : List α) (vs : List α) : List α := vs.foldl chanSend q

/-- `n` successive `recv` calls, collecting the received values. -/
def chanRecvN {α : Type} : Nat → List α → Option (List α × List α)
  | 0, q => some ([], q)
  | n + 1, q =>
    (chanRecv q).bind fun r => (chanRecvN n r.2).map fun w => (r.1 :: w.1, w.2)

/-- The fresh PLIC of the C1 scenario: `priorities[5] = 3`, context-0
threshold 1, context-0 (machine) enable bit for source 5 set. -/
def c1Start : Plic :=
  { plicNew with
    priorities := fun i => if i = 5 then 3 else 0,
    threshold := fun h =>
      if h = 0 then { machine := 1, supervisor := 0 } else { machine := 0, supervisor := 0 },
    enable := fun h =>
      if h = 0 then { machine := fun w => if w = 0 then 1 <<< 5 else 0, supervisor := fun _ => 0 }
      else { machine := fun _ => 0, supervisor := fun _ => 0 } }

/-- C1.  Code behaviour at the claimed scenario: after `irq(5, true)` the
first `claim(0)` returns 5 and the immediately following `claim(0)`
returns 0, as the claim states — but after `complete(0, 5)` and a renewed
`irq(5, true)`, the final `claim(0)` returns 0, not the claimed 5:
`highest_irq` tests the claimed flag at word index `i / 32` instead of
`i`, and the empty second claim marked `claimed[0]`, so every source
below 32 is treated as claimed. -/
theorem claimC1_protocol :
    ((plicIrq c1Start 5 true).bind fun p1 =>
      (plicClaim p1 0).bind fun r1 =>
      (plicClaim r1.2 0).bind fun r2 =>
      (plicComplete r2.2 0 5).bind fun p4 =>
      (plicIrq p4 5 true).bind fun p5 =>
      (plicClaim p5 0).map fun r3 => (r1.1, r2.1, r3.1)) = some (5, 0, 0) := by
  decide

/-- C2.  A 4-byte PLIC read of the last priority-table address
`PLIC_START + 0x403` panics: the byte offset 1023 is used directly as the
index into the 1023-entry `priorities` array, so the access is out of
bounds (`none` is the embedded panic). -/
theorem claimC2_panic :
    plicRead plicNew (PLIC_START + 0x403) Size._4 = none ∧
    PLIC_SOURCE_PRIORITY_START ≤ PLIC_START + 0x403 ∧
    PLIC_START + 0x403 ≤ PLIC_SOURCE_PRIORITY_END := by
  refine ⟨?_, by decide, by decide⟩
  rfl

/-- A UART with receive interrupts enabled and a byte pending. -/
def c4Uart : Uart := { uartNew with ier := UART_IER_RDI, rx := [65] }

/-- C4.  The interrupt branches of `Uart::clk` are inverted.  On a fresh
UART with interrupts disabled and no data, no interrupt condition holds
(`ier = 0`), yet the emitted event asserts the line (`(1, true)`) and the
interrupt-identification register is set to 0 ("interrupt pending")
instead of `UART_IIR_NO_INT`.  Conversely, with receive interrupts
enabled and a byte available, both receive conditions hold, yet the event
deasserts the line and `iir` is set to `UART_IIR_NO_INT`. -/
theorem claimC4_inverted :
    (uartNew.ier = 0 ∧
      (uartClk uartNew).2 = [(INTERRUPT_ID, true)] ∧
      (uartClk uartNew).1.iir = 0) ∧
    (c4Uart.ier &&& UART_IER_RDI ≠ 0 ∧ ((uartClk c4Uart).1.lsr &&& UART_LSR_DR ≠ 0) ∧
      (uartClk c4Uart).2 = [(INTERRUPT_ID, false)] ∧
      (uartClk c4Uart).1.iir = UART_IIR_NO_INT) := by
  decide

/-- A store leaves every byte below its window unchanged. -/
theorem storeLE_lt {j : Nat} : ∀ (n : Nat) (m : Nat → Nat) (o v : Nat), j < o →
    storeLE m o n v j = m j := by
  intro n
  induction n with
  | zero => intro m o v _; rfl
  | succ k ih =>
    intro m o v hj
    show storeLE _ (o + 1) k (v / 256) j = m j
    rw [ih _ (o + 1) _ (by omega)]
    simp [Nat.ne_of_lt hj]

/-- Byte `i` of a little-endian store of `v` is `v / 256 ^ i % 256`. -/
theorem storeLE_get : ∀ (n : Nat) (m : Nat → Nat) (o v i : Nat), i < n →
    storeLE m o n v (o + i) = v / 256 ^ i % 256 := by
  intro n
  induction n with
  | zero => intro _ _ _ _ h; omega
  | succ k ih =>
    intro m o v i hi
    show storeLE _ (o + 1) k (v / 256) (o + i) = _
    match i with
    | 0 =>
      rw [storeLE_lt k _ (o + 1) _ (by omega)]
      simp
    | j + 1 =>
      have : o + (j + 1) = (o + 1) + j := by omega
      rw [this, ih _ (o + 1) _ j (by omega), Nat.div_div_eq_div_mul, pow_succ, mul_comm]

/-- A little-endian load over a just-stored window returns the stored
value modulo the window width. -/
theorem readLE_storeLE : ∀ (n : Nat) (m : Nat → Nat) (o v : Nat),
    readLE (storeLE m o n v) o n = v % 2 ^ (8 * n) := by
  intro n
  induction n with
  | zero => intro _ _ _; simp [readLE, Nat.mod_one]
  | succ k ih =>
    intro m o v
    show (storeLE _ (o + 1) k (v / 256)) o + 256 * readLE (storeLE _ (o + 1) k (v / 256)) (o + 1) k = _
    rw [storeLE_lt k _ (o + 1) _ (by omega), ih]
    simp only []
    have h1 : (2 : Nat) ^ (8 * (k + 1)) = 256 * 2 ^ (8 * k) := by
      rw [Nat.mul_succ, Nat.pow_add]
      ring
    rw [h1, Nat.mod_mul]
    simp

/-- C3 (amended).  RAM round-trip: for every width, every representable
value and every RAM address whose whole access window stays inside the
1 GiB buffer, `Memory::write` followed by `Memory::read` returns the
value, and the bytes are laid out little-endian.  (The original claim
allowed any in-range start address; the last `W - 1` addresses make the
raw-pointer access run past the buffer — see the counterexample.) -/
theorem claimC3_roundtrip (m : Nat → Nat) (s : Size) (a v : Nat)
    (h1 : MEMORY_START ≤ a) (h2 : a + sizeBytes s ≤ MEMORY_START + MEMORY_SIZE)
    (h3 : v < 2 ^ (8 * sizeBytes s)) :
    ((memWrite m a s v).bind fun m2 => memRead m2 a s) = some v ∧
    (∀ i, i < sizeBytes s →
      (memWrite m a s v).map (fun m2 => m2 (a - MEMORY_START + i)) = some (v / 256 ^ i % 256)) := by
  have hg : a - MEMORY_START + sizeBytes s ≤ MEMORY_SIZE := by
    simp only [MEMORY_START, MEMORY_SIZE] at h1 h2 ⊢
    omega
  refine ⟨?_, ?_⟩
  · simp only [memWrite, memRead, if_pos hg, Option.some_bind]
    rw [readLE_storeLE, Nat.mod_eq_of_lt h3]
  · intro i hi
    simp only [memWrite, if_pos hg, Option.map_some']
    rw [storeLE_get _ _ _ _ _ hi]

/-- C3 (counterexample).  `0xBFFFFFFF` is an in-range RAM address, but an
8-byte write there runs past the end of the buffer (undefined behaviour,
embedded as `none`), so write-then-read does not return the value. -/
theorem claimC3_counterexample :
    (MEMORY_START ≤ 0xBFFFFFFF ∧ 0xBFFFFFFF ≤ MEMORY_END) ∧
    ((memWrite (fun _ => 0) 0xBFFFFFFF Size._8 1).bind fun m2 =>
      memRead m2 0xBFFFFFFF Size._8) = none := by
  decide

/-- C3 witness: a concrete 8-byte round-trip at the bottom of RAM. -/
theorem claimC3_witness :
    ((memWrite (fun _ => 0) 0x80001000 Size._8 0x0123456789ABCDEF).bind fun m2 =>
      memRead m2 0x80001000 Size._8) = some 0x0123456789ABCDEF :=
  (claimC3_roundtrip (fun _ => 0) Size._8 0x80001000 0x0123456789ABCDEF
    (by decide) (by decide) (by decide)).1

/-- Sends append to the back of the buffer. -/
theorem chanSendAll_append : ∀ (vs q : List α), chanSendAll q vs = q ++ vs := by
  intro vs
  induction vs with
  | nil => intro q; simp [chanSendAll]
  | cons x xs ih =>
    intro q
    show chanSendAll (chanSend q x) xs = _
    rw [show chanSendAll (chanSend q x) xs = (q ++ [x]) ++ xs from ih (q ++ [x])]
    simp

/-- Receiving as many times as the buffer holds drains it in order. -/
theorem chanRecvN_drain : ∀ (vs : List α), chanRecvN vs.length vs = some (vs, []) := by
  intro vs
  induction vs with
  | nil => rfl
  | cons x xs ih =>
    show ((chanRecv (x :: xs)).bind fun r => (chanRecvN xs.length r.2).map fun w => (r.1 :: w.1, w.2)) = _
    rw [show chanRecv (x :: xs) = some (x, xs) from rfl]
    rw [Option.some_bind, ih]
    rfl

/-- C9.  Channel FIFO ordering: sending any finite sequence of values on
the sender endpoint of a fresh channel and then receiving as many times
on the paired receiver returns exactly that sequence, in order, leaving
the buffer empty. -/
theorem claimC9_fifo {α : Type} (vs : List α) :
    chanRecvN vs.length (chanSendAll [] vs) = some (vs, []) := by
  rw [chanSendAll_append, List.nil_append, chanRecvN_drain]

/-- The specification's interrupt arbitration, stated in the spec's own
words for comparison against the code's `highestIrq`: a source is eligible
for a context iff it is enabled, pending, NOT already claimed-and-
unacknowledged by that context, and its priority is strictly greater than
the context's threshold; scanning ascending from source 1, the first
source of strictly highest priority wins, and 0 means "no interrupt".
It differs from the code's `highestIrq` only in testing the claimed flag
of source `i` itself rather than of index `i / 32`. -/
def specHighestEligible (p : Plic) (context : Nat) : Nat :=
  let en := (p.enable (context / 2)).sel (context % 2)
  let th := (p.threshold (context / 2)).sel (context % 2)
  let cl := (p.claimed (context / 2)).sel (context % 2)
  ((List.range' 1 (INTERRUPT_COUNT - 1)).foldl (fun acc i =>
    if en (i / 32) &&& (1 <<< (i % 32)) ≠ 0 ∧ p.pending (i / 32) &&& (1 <<< (i % 32)) ≠ 0
        ∧ cl i = false ∧ p.priorities i > th ∧ p.priorities i > acc.2
    then (i, p.priorities i) else acc) (0, 0)).1

/-- C6.  The level reported by `check_interrupt` does not reflect whether
the highest-priority eligible source for context 0 is nonzero, because
`highest_irq` tests the claimed flag at index `i / 32` instead of `i`.
Two reachable states diverge in opposite directions.  First: from the
fresh PLIC with `priorities[5] = 3`, threshold 1 and enable bit 5, after
`irq(5, true); claim(0); irq(5, true)` the only pending source 5 is still
claimed-and-unacknowledged — no source is eligible (the spec arbitration
yields 0) — yet `check_interrupt` reports `Some true`.  Second: after
`irq(5, true); claim(0); claim(0); complete(0, 5); irq(5, true)` source 5
is pending, enabled, unclaimed and above threshold — the spec arbitration
yields 5 — yet `check_interrupt` reports `Some false`, because the empty
second claim left `claimed[0]` set. -/
theorem claimC6_bug :
    (((plicIrq c1Start 5 true).bind fun p1 =>
      (plicClaim p1 0).bind fun r1 =>
      (plicIrq r1.2 5 true).bind fun p2 =>
      (checkInterrupt p2).map fun r => (r.1, specHighestEligible p2 0)) =
        some (some true, 0)) ∧
    (((plicIrq c1Start 5 true).bind fun p1 =>
      (plicClaim p1 0).bind fun r1 =>
      (plicClaim r1.2 0).bind fun r2 =>
      (plicComplete r2.2 0 5).bind fun p4 =>
      (plicIrq p4 5 true).bind fun p5 =>
      (checkInterrupt p5).map fun r => (r.1, specHighestEligible p5 0)) =
        some (some false, 5)) := by
  decide

/-- C10.  On the UART produced by `Uart::new`, before any `clk` or
data-register write, a 1-byte read of the line-status register returns
exactly `0x40`: TEMT (bit 6) set, THRE (bit 5) clear, all other bits
clear (the initialiser is `TEMT | TEMT`, not `TEMT | THRE`).  No register
read, and no write to a register other than the data register, sets THRE
from that state; a `clk()` or a data-register write does. -/
theorem claimC10_lsr :
    (uartRead uartNew UART_LSR Size._1 = (.ok 0x40, uartNew)) ∧
    (Nat.testBit 0x40 6 = true ∧ Nat.testBit 0x40 5 = false) ∧
    (∀ a s, Nat.testBit (uartRead uartNew a s).2.lsr 5 = false) ∧
    (∀ a s d, a ≠ UART_THR → Nat.testBit (uartWrite uartNew a s d).2.lsr 5 = false) ∧
    (Nat.testBit (uartClk uartNew).1.lsr 5 = true) ∧
    (∀ d, Nat.testBit (uartWrite uartNew UART_THR Size._1 d).2.lsr 5 = true) := by
  refine ⟨rfl, by decide, ?_, ?_, by decide, ?_⟩
  · intro a s
    unfold uartRead
    split_ifs <;> simp_all [uartNew] <;> decide
  · intro a s d h
    unfold uartWrite
    split_ifs <;> simp_all [uartNew, UART_THR] <;> decide
  · intro d
    simp [uartWrite, uartNew, UART_THR, UART_RBR_DLL, UART_START, UART_LCR_DLAB,
      UART_FCR_ENABLE_FIFO, UART_MCR_LOOP, UART_MCR_OUT2, UART_LSR_TEMT, UART_LSR_THRE]
    rw [if_pos (by decide : (8 : Nat) &&& 16 = 0)]
    show Nat.testBit 96 5 = true
    decide

/-- C10 witness: a scratch-register write does not set THRE. -/
theorem claimC10_witness :
    Nat.testBit (uartWrite uartNew UART_SCR Size._1 0xFF).2.lsr 5 = false :=
  claimC10_lsr.2.2.2.1 UART_SCR Size._1 0xFF (by decide)

/-- C5.  Address decoding and width errors: any access at an address
strictly outside all four device ranges returns the access fault, as
does any non-4-byte access inside the PLIC range and any non-1-byte
access inside the UART range, in every bus state. -/

theorem claimC5_decode (b : Bus) (a : Nat) (s : Size) (d : Nat) :
    ((¬(MEMORY_START ≤ a ∧ a ≤ MEMORY_END) ∧ ¬(PLIC_START ≤ a ∧ a ≤ PLIC_END) ∧
      ¬(UART_START ≤ a ∧ a ≤ UART_END) ∧ ¬(YSYX_START ≤ a ∧ a ≤ YSYX_END)) →
      busRead b a s = some (.error .BusException, b) ∧
      busWrite b a s d = some (.error .BusException, b)) ∧
    ((PLIC_START ≤ a ∧ a ≤ PLIC_END) → s ≠ Size._4 →
      busRead b a s = some (.error .BusException, b) ∧
      busWrite b a s d = some (.error .BusException, b)) ∧
    ((UART_START ≤ a ∧ a ≤ UART_END) → s ≠ Size._1 →
      busRead b a s = some (.error .BusException, b) ∧
      busWrite b a s d = some (.error .BusException, b)) := by
  refine ⟨?_, ?_, ?_⟩
  · rintro ⟨h1, h2, h3, h4⟩
    unfold busRead busWrite
    rw [if_neg h1, if_neg h2, if_neg h3, if_neg h4, if_neg h1, if_neg h2, if_neg h3, if_neg h4]
    exact ⟨rfl, rfl⟩
  · intro hp hs
    have hm : ¬(MEMORY_START ≤ a ∧ a ≤ MEMORY_END) := by
      simp only [MEMORY_START, MEMORY_END, MEMORY_SIZE, PLIC_START, PLIC_END] at *
      omega
    unfold busRead busWrite
    rw [if_neg hm, if_pos hp, if_neg hm, if_pos hp]
    unfold plicRead plicWrite
    rw [if_pos hs, if_pos hs]
    exact ⟨rfl, rfl⟩
  · intro hu hs
    have hm : ¬(MEMORY_START ≤ a ∧ a ≤ MEMORY_END) := by
      simp only [MEMORY_START, MEMORY_END, MEMORY_SIZE, UART_START, UART_END] at *
      omega
    have hp : ¬(PLIC_START ≤ a ∧ a ≤ PLIC_END) := by
      simp only [PLIC_START, PLIC_END, UART_START, UART_END] at *
      omega
    unfold busRead busWrite
    rw [if_neg hm, if_neg hp, if_pos hu, if_neg hm, if_neg hp, if_pos hu]
    unfold uartRead uartWrite
    rw [if_pos hs, if_pos hs]
    exact ⟨rfl, rfl⟩

/-- C5 witness: address 0 lies outside every device range and faults. -/
theorem claimC5_witness :
    busRead busNew 0 Size._1 = some (.error .BusException, busNew) :=
  ((claimC5_decode busNew 0 Size._1 0).1 (by decide)).1

/-- `Uart::clk` contributes exactly one event on the UART's line. -/
theorem uartClk_single (u : Uart) : ∃ l, (uartClk u).2 = [(INTERRUPT_ID, l)] :=
  ⟨_, rfl⟩

/-- `Plic::irq` succeeds for every source id below 1024. -/
theorem plicIrq_some (p : Plic) (i : Nat) (l : Bool) (h : i < 1024) :
    ∃ q, plicIrq p i l = some q := by
  have hi : i / 32 < 32 := by omega
  simp [plicIrq, getP, setP, hi]

/-- One `Bus::clk` call: the counter resets to 0 on a driven call
(`count > 1000`) and increments otherwise. -/
theorem busClk_count (b : Bus) :
    ∃ b2, busClk b = some b2 ∧ b2.count = if b.count > 1000 then 0 else b.count + 1 := by
  by_cases h : b.count > 1000
  · obtain ⟨l, hl⟩ := uartClk_single b.uart
    obtain ⟨q, hq⟩ := plicIrq_some b.plic INTERRUPT_ID l (by decide)
    simp only [busClk, if_pos h, hl, List.reverse_singleton, applyIrqs, hq, Option.some_bind,
      Option.map_some']
    exact ⟨_, rfl, by simp [h]⟩
  · simp only [busClk, if_neg h]
    exact ⟨_, rfl, by simp [h]⟩

/-- The throttle counter after `n` calls from a fresh bus is `n % 1002`. -/
theorem busClkN_count : ∀ n : Nat, ∃ b2, busClkN n busNew = some b2 ∧ b2.count = n % 1002 := by
  intro n
  induction n with
  | zero => exact ⟨busNew, rfl, by decide⟩
  | succ k ih =>
    obtain ⟨b2, h1, h2⟩ := ih
    obtain ⟨b3, h3, h4⟩ := busClk_count b2
    refine ⟨b3, ?_, ?_⟩
    · show (busClkN k busNew).bind busClk = some b3
      rw [h1, Option.some_bind, h3]
    · rw [h4, h2]
      by_cases hk : k % 1002 > 1000
      · rw [if_pos hk]
        omega
      · rw [if_neg hk]
        omega

/-- C7 (amended).  Clock throttling from a fresh bus: after `n` calls the
internal counter holds `n % 1002`, call `n + 1` drives the devices' `clk`
methods exactly when `n + 1` is a multiple of 1002 (the guard is
`count > 1000`, so a tick fires every 1002nd call, not every 1000th), and
the counter is reset to zero by each driven tick. -/
theorem claimC7_throttle (n : Nat) :
    ∃ b2, busClkN n busNew = some b2 ∧ b2.count = n % 1002 ∧
      busDrives b2 = decide ((n + 1) % 1002 = 0) := by
  obtain ⟨b2, h1, h2⟩ := busClkN_count n
  refine ⟨b2, h1, h2, ?_⟩
  simp only [busDrives, h2, decide_eq_decide]
  omega

/-- C7 (counterexample).  The 1000th call from a fresh bus does not drive
a tick: after 999 calls the counter holds 999 (not above 1000), and after
1000 calls it holds 1000 rather than having been reset. -/
theorem claimC7_counterexample :
    ∃ b2, busClkN 999 busNew = some b2 ∧ busDrives b2 = false ∧
      ∃ b3, busClkN 1000 busNew = some b3 ∧ b3.count = 1000 := by
  obtain ⟨b2, h1, h2⟩ := busClkN_count 999
  obtain ⟨b3, h3, h4⟩ := busClkN_count 1000
  exact ⟨b2, h1, by simp [busDrives, h2], b3, h3, by omega⟩

/-- C8 (counterexample).  A 4-byte read at byte offset +4 of the context-0
threshold/claim block does not perform a claim: offset 4 falls in the
match gap (`item` is the raw byte offset, and only 0 and 1 are mapped),
so the read faults. -/
theorem claimC8_counterexample :
    plicRead plicNew (PLIC_THRESHOLD_CLIAM_COMPLETE_START + 4) Size._4 =
      some (.error .BusException, plicNew) := rfl

/-- C8 (amended).  Per-context threshold/claim/complete layout: for every
context `c` backed by the state arrays (`c < 4`), a 4-byte read at
`PLIC base + 0x200000 + c * 0x1000` returns the context's threshold and a
write there sets it; the claim/complete register sits at byte offset +1
(not +4): a 4-byte read there performs `claim(c)` (also raising the
update flag) and a write performs `complete(c, data)`. -/
theorem claimC8_layout (p : Plic) (c d : Nat) (hc : c < 4) :
    (plicRead p (PLIC_THRESHOLD_CLIAM_COMPLETE_START + c * 0x1000) Size._4 =
      some (.ok ((p.threshold (c / 2)).sel (c % 2)), p)) ∧
    (plicWrite p (PLIC_THRESHOLD_CLIAM_COMPLETE_START + c * 0x1000) Size._4 d =
      some (.ok (), { p with threshold := fun j =>
        if j = c / 2 then (p.threshold (c / 2)).store (c % 2) (d % 2 ^ 32) else p.threshold j })) ∧
    (plicRead p (PLIC_THRESHOLD_CLIAM_COMPLETE_START + c * 0x1000 + 1) Size._4 =
      (plicClaim p c).map fun r => (.ok r.1, { r.2 with update := true })) ∧
    (plicWrite p (PLIC_THRESHOLD_CLIAM_COMPLETE_START + c * 0x1000 + 1) Size._4 d =
      (plicComplete p c (d % 2 ^ 32)).map fun q => (.ok (), q)) := by
  interval_cases c <;> exact ⟨rfl, rfl, rfl, rfl⟩

/-- C8 witness: the context-0 claim register read on a fresh PLIC. -/
theorem claimC8_witness :
    plicRead plicNew (PLIC_THRESHOLD_CLIAM_COMPLETE_START + 0 * 0x1000 + 1) Size._4 =
      (plicClaim plicNew 0).map fun r => (.ok r.1, { r.2 with update := true }) :=
  (claimC8_layout plicNew 0 5 (by decide)).2.2.1
